import Mathlib

/-!
Verification of the Masivas student-roster frontend core against its
specification.  The TypeScript source is shallowly embedded: pure helpers
become Lean functions, event handlers become functions from the incoming
event/response data to the resulting state, and JS values that can be
`''`, `null`, a number or `NaN` are embedded as an explicit sum type.
-/

namespace Masivas

/-! ## JS string helpers (faithful to the JS built-ins used by the source) -/

/-- Whitespace test used to model the character class `\s` of JS regexes and
the character set removed by `String.prototype.trim` (restricted to the ASCII
whitespace that can appear in the form fields). -/
def jsWhitespace (c : Char) : Bool := c.isWhitespace

/-- Trim on a character list: drop leading and trailing whitespace, as
`String.prototype.trim` does. -/
def trimList (l : List Char) : List Char :=
  (((l.dropWhile jsWhitespace).reverse).dropWhile jsWhitespace).reverse

/-- Model of `String.prototype.trim`. -/
def jsTrim (s : String) : String := ⟨trimList s.data⟩

/-- Model of `String.prototype.toLowerCase` (ASCII-adequate for the
extensions compared by the source). -/
def jsToLower (s : String) : String := ⟨s.data.map Char.toLower⟩

/-- Model of `String.prototype.endsWith`. -/
def jsEndsWith (s suffix : String) : Bool := suffix.data.isSuffixOf s.data

/-! ## File Validator (`validarArchivoExcel`, part_002 lines 2-34) -/

/-- The fields of a DOM `File` object consulted by the validator. -/
structure JsFile where
  name : String
  type : String
  size : ℕ
deriving DecidableEq

/-- Return shape of `validarArchivoExcel`. -/
structure FileValidationResult where
  valido : Bool
  errores : List String
deriving DecidableEq

/-- Source list `tiposPermitidos`: MIME types admitted as an Excel file. -/
def tiposPermitidos : List String :=
  ["application/vnd.ms-excel",
   "application/vnd.openxmlformats-officedocument.spreadsheetml.sheet",
   "application/octet-stream",
   "application/zip",
   ""]

/-- Error message pushed by the extension/type rule. -/
def mensajeErrorTipo : String :=
  "El archivo seleccionado no es un archivo Excel válido (.xlsx o .xls)"

/-- Error message pushed by the size rule.  The source interpolates the size
formatted in MB with two decimals; the numeric size is carried verbatim here
since no claim depends on the decimal rendering. -/
def mensajeErrorTamano (size : ℕ) : String :=
  "El archivo excede el tamaño máximo permitido (5 MB). Tamaño actual: " ++
    toString size ++ " bytes"

/-- Embedding of `validarArchivoExcel` (part_002): pushes the type/extension
error when the MIME type is not permitted AND the lowercased name ends in
neither `.xlsx` nor `.xls`; independently pushes the size error when
`size > 5 * 1024 * 1024`; `valido` is `errores.length === 0`. -/
def validarArchivoExcel (file : JsFile) : FileValidationResult :=
  let errores₁ : List String :=
    if !(tiposPermitidos.contains file.type) &&
       !(jsEndsWith (jsToLower file.name) ".xlsx") &&
       !(jsEndsWith (jsToLower file.name) ".xls") then
      [mensajeErrorTipo]
    else []
  let maxSize : ℕ := 5 * 1024 * 1024
  let errores : List String :=
    errores₁ ++ (if file.size > maxSize then [mensajeErrorTamano file.size] else [])
  { valido := errores.length == 0, errores := errores }

/-! ## Transfer Tracker (`ModalExel.tsx`, `handleUploadExcel` and the xhr
handlers, lines 147-268) -/

/-- One per-record error of the server's import verdict. -/
structure ImportError where
  estudiante : String
  error : String
deriving DecidableEq

/-- The `ProcessingResults` / `ImportResults` JSON shape: the server's
verdict for one bulk import. -/
structure ProcessingResults where
  success : Bool
  msg : Option String
  message : Option String
  insertados : Option ℕ
  totalProcesados : Option ℕ
  errores : Option (List ImportError)
deriving DecidableEq

/-- Terminal state of the upload promise: resolved with parsed results, or
rejected with an error message. -/
inductive UploadSettle where
  | resolved (data : ProcessingResults)
  | rejected (msg : String)
deriving DecidableEq

/-- Embedding of the `xhr.onload` handler: `status` is `xhr.status` and
`parsed` is the result of `JSON.parse(xhr.responseText)` (`none` when the
parse throws).  The JS `switch` over non-2xx statuses becomes an if-else
chain. -/
def xhrOnload (status : ℕ) (parsed : Option ProcessingResults) : UploadSettle :=
  if 200 ≤ status ∧ status < 300 then
    match parsed with
    | some d => .resolved d
    | none => .rejected "Error al analizar la respuesta del servidor"
  else if status = 400 then .rejected "Archivo con formato incorrecto"
  else if status = 413 then .rejected "El archivo es demasiado grande"
  else if status = 500 then .rejected "Error en el servidor"
  else .rejected ("Error HTTP: " ++ toString status)

/-- Embedding of the `xhr.onerror` handler (network-level failure). -/
def xhrOnerror : UploadSettle :=
  .rejected "Error de red al intentar conectar con el servidor"

/-- Embedding of the `xhr.ontimeout` handler. -/
def xhrOntimeout : UploadSettle :=
  .rejected "Tiempo de espera agotado. Compruebe su conexión"

/-! ## Import Result Interpreter (`ImportResultsDisplay`, part_001
lines 38-163 / part_000 lines 1019-1119) -/

/-- JS `Math.round`: round half toward positive infinity. -/
def jsRound (q : ℚ) : ℤ := ⌊q + 1 / 2⌋

/-- Destructuring default `insertados = 0`. -/
def insertadosVal (r : ProcessingResults) : ℕ := r.insertados.getD 0

/-- Destructuring default `totalProcesados = 0`. -/
def totalProcesadosVal (r : ProcessingResults) : ℕ := r.totalProcesados.getD 0

/-- Destructuring default `errores = []`. -/
def erroresVal (r : ProcessingResults) : List ImportError := r.errores.getD []

/-- Source condition `tieneErrores = errores && errores.length > 0` (after the `[]`
default, the array is always truthy, so this is the length test). -/
def tieneErrores (r : ProcessingResults) : Bool := decide (0 < (erroresVal r).length)

/-- Source formula `porcentajeExito = totalProcesados ? Math.round((insertados /
totalProcesados) * 100) : 0` — the completion percentage; a falsy (zero)
`totalProcesados` short-circuits to 0. -/
def porcentajeExito (r : ProcessingResults) : ℤ :=
  if totalProcesadosVal r ≠ 0 then
    jsRound ((insertadosVal r : ℚ) / (totalProcesadosVal r : ℚ) * 100)
  else 0

/-- The primary status line rendered by `ImportResultsDisplay`: on success
the server `message` or a computed default, otherwise the server `msg` or a
default error text. -/
def mensajePrincipal (r : ProcessingResults) : String :=
  if r.success then
    r.message.getD
      ("Se han procesado " ++ toString (totalProcesadosVal r) ++ " registros correctamente.")
  else
    r.msg.getD "Ha ocurrido un error durante la importación."

/-- What `ImportResultsDisplay` renders: the status message, whether the
statistics chips show (`totalProcesados > 0`), whether the per-record error
accordion shows (`tieneErrores`), the number of listed errors, and the
completion percentage. -/
structure ImportResultsView where
  mensaje : String
  showChips : Bool
  showErrorList : Bool
  errorCount : ℕ
  porcentaje : ℤ
deriving DecidableEq

/-- Embedding of the render logic of `ImportResultsDisplay`. -/
def importResultsView (r : ProcessingResults) : ImportResultsView :=
  { mensaje := mensajePrincipal r
    showChips := decide (0 < totalProcesadosVal r)
    showErrorList := tieneErrores r
    errorCount := (erroresVal r).length
    porcentaje := porcentajeExito r }

/-- The concrete outcome used by the spec's test of the interpreter:
`success:true, insertados:8, totalProcesados:10`, two per-record errors. -/
def sampleOutcome : ProcessingResults :=
  { success := true
    msg := none
    message := some "Importación exitosa"
    insertados := some 8
    totalProcesados := some 10
    errores := some [⟨"Fila 3", "email inválido"⟩, ⟨"Fila 7", "semestre fuera de rango"⟩] }

/-! ## Post-upload refresh scheduling (`handleUploadExcel` lines 242-263
and `handleImportComplete` part_000 lines 222-224) -/

/-- Delays (in milliseconds) of the `setTimeout(onImportComplete, 2000)`
timers scheduled by `handleUploadExcel` once the upload promise settles:
one 2000 ms timer when the parsed outcome has `success:true`, none when
`success:false` (only `setError` runs) and none when the promise was
rejected (the `catch` branch only sets the error and resets progress). -/
def afterUploadScheduledRefreshDelays (r : UploadSettle) : List ℕ :=
  match r with
  | .resolved d => if d.success then [2000] else []
  | .rejected _ => []

/-- Callback `handleImportComplete` (the parent callback run by each scheduled
timer) calls `fetchEstudiantes` exactly once. -/
def handleImportCompleteRefreshCount : ℕ := 1

/-- Total number of list refreshes the settled upload triggers. -/
def refreshesTriggered (r : UploadSettle) : ℕ :=
  (afterUploadScheduledRefreshDelays r).length * handleImportCompleteRefreshCount

/-! ## Student data model (`EstudianteData` / `Estudiante` interfaces) -/

/-- The JS value held by the `promedio` field: the empty string (the form's
"unset" representation), `null`, a numeric value, or `NaN` (also standing
for a non-numeric string, which `parseFloat` turns into `NaN`). -/
inductive PromedioVal where
  | empty
  | null
  | num (q : ℚ)
  | nan
deriving DecidableEq

/-- A student record as exchanged with the service and edited in the form. -/
structure Estudiante where
  id_estudiante : ℤ
  nombre : String
  apellido : String
  email : String
  telefono : String
  carrera : String
  semestre : ℤ
  promedio : PromedioVal
  estado : Option ℤ
  fecha_registro : Option String
deriving DecidableEq

/-! ## Notification Channel and Record Table Controller (part_000) -/

/-- MUI alert severities used by `showAlert`. -/
inductive Severity where
  | success
  | error
  | warning
  | info
deriving DecidableEq

/-- The `AlertMessage` state (`open` is a Lean keyword, hence `open_`). -/
structure AlertMessage where
  message : String
  severity : Severity
  open_ : Bool
deriving DecidableEq

/-- The component state touched by `fetchEstudiantes` /
`handleDeleteEstudiante`: the in-memory student list, the alert slot, and
the loading flag. -/
structure ControllerState where
  estudiantes : List Estudiante
  alert : AlertMessage
  loading : Bool
deriving DecidableEq

/-- Embedding of `showAlert(message, severity)`: replaces the single alert slot. -/
def showAlert (st : ControllerState) (message : String) (severity : Severity) :
    ControllerState :=
  { st with alert := ⟨message, severity, true⟩ }

/-- Outcome of the `GET /estudiantes` fetch as observed by
`fetchEstudiantes`: a network-level error (fetch threw), a non-OK HTTP
status (the code throws and lands in `catch`), or a parsed body with its
`success` flag, `data` array and optional `msg`. -/
inductive FetchResult where
  | netError (msg : String)
  | httpError (status : ℕ)
  | body (success : Bool) (data : List Estudiante) (msg : Option String)

/-- Embedding of `fetchEstudiantes` (part_000 lines 88-114): on
`success:true` the list is replaced wholesale by `data.data`; every failure
path only surfaces an alert and clears `loading`, leaving the list as it
was. -/
def fetchEstudiantesStep (st : ControllerState) (r : FetchResult) : ControllerState :=
  match r with
  | .body true data _ =>
      { st with estudiantes := data, loading := false }
  | .body false _ msg =>
      { showAlert st ("Error al cargar estudiantes: " ++ msg.getD "Error desconocido")
          .error with loading := false }
  | .httpError status =>
      { showAlert st ("Error al cargar estudiantes: " ++ ("Error HTTP: " ++ toString status))
          .error with loading := false }
  | .netError m =>
      { showAlert st ("Error al cargar estudiantes: " ++ m) .error with loading := false }

/-- Outcome of the `DELETE /estudiantes/{id}` call as observed by
`handleDeleteEstudiante`. -/
inductive MutationResult where
  | netError (msg : String)
  | httpError (status : ℕ)
  | body (success : Bool) (msg : Option String)
deriving DecidableEq

/-- Embedding of `handleDeleteEstudiante` (part_000 lines 227-252).  The
returned number counts the `fetchEstudiantes()` refresh calls the handler
issues: exactly one on `success:true`, none otherwise.  The handler itself
never touches `estudiantes` — rows disappear only through the refresh. -/
def handleDeleteEstudianteStep (st : ControllerState) (r : MutationResult) :
    ControllerState × ℕ :=
  match r with
  | .body true _ =>
      ({ showAlert st "Estudiante eliminado correctamente" .success with loading := false }, 1)
  | .body false msg =>
      ({ showAlert st ("Error: " ++ msg.getD "Error desconocido") .error
          with loading := false }, 0)
  | .httpError status =>
      ({ showAlert st ("Error: " ++ ("Error HTTP: " ++ toString status)) .error
          with loading := false }, 0)
  | .netError m =>
      ({ showAlert st ("Error: " ++ m) .error with loading := false }, 0)

/-! ## Dynamic table row identity and edit flow
(`DinamicTableEstudiantes.tsx`) -/

/-- Source key generator `getRowId = (row) => row.id_estudiante || Math.random()` — the display
key of a row: the identifier when truthy (nonzero), otherwise the freshly
generated random number `rand`. -/
def getRowId (row : Estudiante) (rand : ℚ) : ℚ :=
  if row.id_estudiante ≠ 0 then (row.id_estudiante : ℚ) else rand

/-- The argument of the delete intent fired by the actions column:
`onDelete(params.row.id_estudiante)`. -/
def deleteClickArg (row : Estudiante) : ℤ := row.id_estudiante

/-- The argument of the edit intent fired by the actions column:
`handleOpenModal(params.row)` receives the full row. -/
def editClickArg (row : Estudiante) : Estudiante := row

/-- JS `parseFloat` restricted to the values `promedio` can hold: a number
parses to itself; `''`, `null` and `NaN` all parse to `NaN`. -/
def jsParseFloat : PromedioVal → PromedioVal
  | .num q => .num q
  | _ => .nan

/-- Embedding of `handleGuardarEdicion` (DinamicTableEstudiantes.tsx lines
61-74): before the edited record is handed to `onEdit`, its `promedio` is
normalised — the empty string becomes `0`, anything else goes through
`parseFloat`. -/
def handleGuardarEdicion (est : Estudiante) : Estudiante :=
  { est with promedio := if est.promedio = .empty then .num 0 else jsParseFloat est.promedio }

/-- A concrete student record used to instantiate the controller claims. -/
def sampleEstudiante : Estudiante :=
  ⟨7, "Ana", "Lee", "ana@uni.mx", "5550100", "Medicina", 3, .num 9, some 1, none⟩

/-- A concrete controller state with one student and no visible alert. -/
def sampleState : ControllerState :=
  ⟨[sampleEstudiante], ⟨"", .info, false⟩, false⟩

/-- A row whose identifier is absent (zero), forcing the synthetic key. -/
def fallbackRow : Estudiante :=
  ⟨0, "Ana", "Lee", "ana@uni.mx", "5550100", "Medicina", 1, .empty, none, none⟩

/-! ## Record Form Validator (`validateForm`, ModalExel.tsx lines 617-664,
the richer of the two versions cited by the spec) -/

/-- Character class `[^\s@]` of the email regex. -/
def emailChar (c : Char) : Bool := !(jsWhitespace c) && !(c = '@')

/-- Whether a character list contains a `.` with at least one character on
each side (the `[^\s@]+\.[^\s@]+` tail of the regex, whose segments may
themselves contain further dots). -/
def hasInteriorDot (l : List Char) : Bool :=
  (List.range l.length).any fun i =>
    decide (1 ≤ i) && decide (i + 1 < l.length) && (l.getD i ' ' == '.')

/-- Executable model of `/^[^\s@]+@[^\s@]+\.[^\s@]+$/.test(s)`: no
whitespace anywhere, exactly one `@`, a nonempty local part before it, and
an interior dot in the nonempty domain part after it. -/
def emailRegexTest (s : String) : Bool :=
  let cs := s.data
  cs.all (fun c => !(jsWhitespace c)) &&
  (cs.count '@' == 1) &&
  !((cs.takeWhile (fun c => !(c = '@'))).isEmpty) &&
  hasInteriorDot ((cs.dropWhile (fun c => !(c = '@'))).drop 1)

/-- The `promedio` branch of `validateForm`: no check for `''`/`null`;
otherwise error when `isNaN(promedioNum) || promedioNum < 0 ||
promedioNum > 10`. -/
def promedioErrors (p : PromedioVal) : List (String × String) :=
  match p with
  | .empty => []
  | .null => []
  | .num q =>
      if q < 0 ∨ 10 < q then [("promedio", "El promedio debe estar entre 0 y 10")] else []
  | .nan => [("promedio", "El promedio debe estar entre 0 y 10")]

/-- Embedding of `validateForm`: the `newErrors` mapping it builds, as the
ordered list of (field, message) pairs, one independent check per field. -/
def validateFormErrors (f : Estudiante) : List (String × String) :=
  (if jsTrim f.nombre = "" then [("nombre", "El nombre es obligatorio")] else []) ++
  (if jsTrim f.apellido = "" then [("apellido", "El apellido es obligatorio")] else []) ++
  (if jsTrim f.email = "" then [("email", "El email es obligatorio")]
   else if emailRegexTest f.email = false then [("email", "El email no es válido")] else []) ++
  (if jsTrim f.telefono = "" then [("telefono", "El teléfono es obligatorio")] else []) ++
  (if f.carrera = "" ∨ jsTrim f.carrera = "" then [("carrera", "La carrera es obligatoria")]
   else []) ++
  (if f.semestre < 1 ∨ 12 < f.semestre then
     [("semestre", "El semestre debe estar entre 1 y 12")] else []) ++
  promedioErrors f.promedio

/-- Boolean verdict of `validateForm`: `Object.keys(newErrors).length === 0`. -/
def validateForm (f : Estudiante) : Bool := (validateFormErrors f).length == 0

/-- The spec's acceptance condition on the average, stated from its words:
when present (not empty/absent) it must be a number in [0,10]; empty or
absent is accepted as unset. -/
def promedioClaimOk : PromedioVal → Prop
  | .empty => True
  | .null => True
  | .num q => 0 ≤ q ∧ q ≤ 10
  | .nan => False

/-- The spec's example candidate `{nombre:"", apellido:"Lee", email:"bad",
semestre:13, promedio:11}` with the remaining fields valid. -/
def badCandidate : Estudiante :=
  ⟨0, "", "Lee", "bad", "5550100", "Medicina", 13, .num 11, none, none⟩

/-- The same candidate with `promedio` the empty string. -/
def badCandidateEmptyProm : Estudiante := { badCandidate with promedio := .empty }

/-! ## Upload progress events (`xhr.upload.onprogress`, ModalExel.tsx
lines 177-182) -/

/-- The fields of a DOM `ProgressEvent` read by the handler. -/
structure ProgressEvent where
  lengthComputable : Bool
  loaded : ℕ
  total : ℕ
deriving DecidableEq

/-- Source formula `percentComplete = (event.loaded / event.total) * 100`. -/
def percentComplete (e : ProgressEvent) : ℚ := ((e.loaded : ℚ) / (e.total : ℚ)) * 100

/-- What one `onprogress` call feeds to `setUploadProgress`: the computed
percentage when `lengthComputable`, nothing otherwise. -/
def onprogressEmit (e : ProgressEvent) : Option ℚ :=
  if e.lengthComputable then some (percentComplete e) else none

/-- The percentages emitted across a sequence of progress events. -/
def emittedPercents (evs : List ProgressEvent) : List ℚ := evs.filterMap onprogressEmit

/-- The events the browser delivers to the xhr handlers during one upload:
progress ticks and the single settling event (`onload` outcome, `onerror`
or `ontimeout`). -/
inductive XhrEvent where
  | prog (e : ProgressEvent)
  | terminal (t : UploadSettle)
deriving DecidableEq

/-- Select the progress payload of an event. -/
def xhrEventProg : XhrEvent → Option ProgressEvent
  | .prog e => some e
  | .terminal _ => none

/-- The progress events of a trace, in delivery order. -/
def progEvents (tr : List XhrEvent) : List ProgressEvent := tr.filterMap xhrEventProg

/-- Whether an event settles the upload promise. -/
def isTerminalEvent : XhrEvent → Bool
  | .prog _ => false
  | .terminal _ => true

/-- The events delivered strictly after the first terminal event. -/
def eventsAfterTerminal (tr : List XhrEvent) : List XhrEvent :=
  (tr.dropWhile (fun ev => !(isTerminalEvent ev))).drop 1

/-- A concrete well-formed upload trace: two computable ticks, one
non-computable tick, then the terminal event. -/
def sampleTrace : List XhrEvent :=
  [.prog ⟨true, 50, 200⟩, .prog ⟨false, 120, 200⟩, .prog ⟨true, 200, 200⟩,
   .terminal (.resolved sampleOutcome)]

end Masivas

namespace Masivas

/-- Helper: the accept condition of `validarArchivoExcel`, spelled out. -/
theorem validarArchivoExcel_valido_iff (f : JsFile) :
    (validarArchivoExcel f).valido = true ↔
      ((tiposPermitidos.contains f.type
          || jsEndsWith (jsToLower f.name) ".xlsx"
          || jsEndsWith (jsToLower f.name) ".xls") = true
        ∧ f.size ≤ 5 * 1024 * 1024) := by
  unfold validarArchivoExcel
  cases h1 : tiposPermitidos.contains f.type <;>
    cases h2 : jsEndsWith (jsToLower f.name) ".xlsx" <;>
      cases h3 : jsEndsWith (jsToLower f.name) ".xls" <;>
        by_cases h4 : f.size > 5 * 1024 * 1024 <;>
          simp_all

/-- Claim C1 counterexample: a file named `data.txt` (lowercase extension
`.txt`, outside {.xlsx, .xls}) whose MIME type is
`application/vnd.ms-excel` is ACCEPTED by `validarArchivoExcel`, so the
validator does not reject a wrong-extension file regardless of MIME type. -/
theorem claim_C1_counterexample :
    (validarArchivoExcel ⟨"data.txt", "application/vnd.ms-excel", 100⟩).valido = true ∧
    jsEndsWith (jsToLower "data.txt") ".xlsx" = false ∧
    jsEndsWith (jsToLower "data.txt") ".xls" = false := by
  decide

/-- Claim C1 (amended): `validarArchivoExcel` accepts exactly when (the MIME
type is one of the five permitted values OR the file name's lowercase
extension is `.xlsx` or `.xls`) AND the size is at most 5 × 1024 × 1024
bytes; in particular, for any name with a valid lowercase extension and any
MIME type, a file of size exactly 5 × 1024 × 1024 bytes is accepted and one
of size 5 × 1024 × 1024 + 1 bytes is rejected. -/
theorem claim_C1_amended (f : JsFile) (name t : String)
    (hext : (jsEndsWith (jsToLower name) ".xlsx"
              || jsEndsWith (jsToLower name) ".xls") = true) :
    ((validarArchivoExcel f).valido = true ↔
      ((tiposPermitidos.contains f.type
          || jsEndsWith (jsToLower f.name) ".xlsx"
          || jsEndsWith (jsToLower f.name) ".xls") = true
        ∧ f.size ≤ 5 * 1024 * 1024)) ∧
    (validarArchivoExcel ⟨name, t, 5 * 1024 * 1024⟩).valido = true ∧
    (validarArchivoExcel ⟨name, t, 5 * 1024 * 1024 + 1⟩).valido = false := by
  refine ⟨validarArchivoExcel_valido_iff f, ?_, ?_⟩
  · exact (validarArchivoExcel_valido_iff _).mpr
      ⟨by cases h : jsEndsWith (jsToLower name) ".xlsx" <;> simp_all, le_refl _⟩
  · have h := validarArchivoExcel_valido_iff (⟨name, t, 5 * 1024 * 1024 + 1⟩ : JsFile)
    cases hv : (validarArchivoExcel ⟨name, t, 5 * 1024 * 1024 + 1⟩).valido
    · rfl
    · have h2 := (h.mp hv).2
      simp only [JsFile.mk.injEq] at h2
      omega

/-- Claim C1 witness: the amended theorem applied at concrete boundary
inputs `a.xlsx` of sizes 5 MiB and 5 MiB + 1. -/
theorem claim_C1_witness :
    (validarArchivoExcel ⟨"a.xlsx", "text/plain", 5 * 1024 * 1024⟩).valido = true ∧
    (validarArchivoExcel ⟨"a.xlsx", "text/plain", 5 * 1024 * 1024 + 1⟩).valido = false :=
  ⟨(claim_C1_amended ⟨"x", "", 0⟩ "a.xlsx" "text/plain" (by decide)).2.1,
   (claim_C1_amended ⟨"x", "", 0⟩ "a.xlsx" "text/plain" (by decide)).2.2⟩

/-- Claim C4: on any service-reported failure (network error, non-OK HTTP
status, or `success:false` body) both refresh and delete leave the
in-memory student list exactly as it was; a successful delete issues
exactly one refresh and a failed one issues none; and a successful fetch
changes the list only by wholesale replacement with the fetched data. -/
theorem claim_C4 (st : ControllerState) :
    (∀ m, (fetchEstudiantesStep st (.netError m)).estudiantes = st.estudiantes) ∧
    (∀ s, (fetchEstudiantesStep st (.httpError s)).estudiantes = st.estudiantes) ∧
    (∀ d m, (fetchEstudiantesStep st (.body false d m)).estudiantes = st.estudiantes) ∧
    (∀ d m, (fetchEstudiantesStep st (.body true d m)).estudiantes = d) ∧
    (∀ r, (handleDeleteEstudianteStep st r).1.estudiantes = st.estudiantes) ∧
    (∀ m, (handleDeleteEstudianteStep st (.body true m)).2 = 1) ∧
    (∀ r, (∀ m, r ≠ MutationResult.body true m) →
        (handleDeleteEstudianteStep st r).2 = 0) := by
  refine ⟨fun m => rfl, fun s => rfl, fun d m => rfl, fun d m => rfl, ?_,
    fun m => rfl, ?_⟩
  · intro r
    cases r with
    | netError m => rfl
    | httpError s => rfl
    | body success msg => cases success <;> rfl
  · intro r h
    cases r with
    | netError m => rfl
    | httpError s => rfl
    | body success msg =>
      cases success with
      | false => rfl
      | true => exact absurd rfl (h msg)

/-- Claim C4 witness: the theorem applied at a concrete one-student state:
an HTTP 500 refresh keeps the list, a successful delete issues one refresh,
a network-failed delete issues none. -/
theorem claim_C4_witness :
    (fetchEstudiantesStep sampleState (.httpError 500)).estudiantes
      = sampleState.estudiantes ∧
    (handleDeleteEstudianteStep sampleState (.body true none)).2 = 1 ∧
    (handleDeleteEstudianteStep sampleState (.netError "net")).2 = 0 :=
  ⟨(claim_C4 sampleState).2.1 500,
   (claim_C4 sampleState).2.2.2.2.2.1 none,
   (claim_C4 sampleState).2.2.2.2.2.2 _ (fun _ h => nomatch h)⟩

/-- Claim C9: the delete intent always carries the row's own
`id_estudiante` and the edit intent always carries the full record; the
synthetic display key equals the random fallback exactly when the
identifier is absent (zero) and the identifier itself otherwise, so the
fallback never reaches a mutating call. -/
theorem claim_C9 (row : Estudiante) (rand : ℚ) :
    deleteClickArg row = row.id_estudiante ∧
    editClickArg row = row ∧
    (row.id_estudiante = 0 → getRowId row rand = rand) ∧
    (row.id_estudiante ≠ 0 → getRowId row rand = (row.id_estudiante : ℚ)) := by
  refine ⟨rfl, rfl, ?_, ?_⟩ <;> intro h <;> simp [getRowId, h]

/-- Claim C9 witness: on a row with absent identifier the display key is
the random fallback, yet delete still receives the id field and edit the
full record. -/
theorem claim_C9_witness :
    deleteClickArg fallbackRow = 0 ∧
    getRowId fallbackRow (1 / 2) = 1 / 2 ∧
    editClickArg fallbackRow = fallbackRow :=
  ⟨(claim_C9 fallbackRow (1 / 2)).1,
   (claim_C9 fallbackRow (1 / 2)).2.2.1 rfl,
   (claim_C9 fallbackRow (1 / 2)).2.1⟩

/-- Claim C10: an edited record whose `promedio` is the empty string is
submitted with `promedio` 0 — never as an absent (`''`/`null`) value — and
no other field is altered. -/
theorem claim_C10 (est : Estudiante) (h : est.promedio = .empty) :
    (handleGuardarEdicion est).promedio = .num 0 ∧
    (handleGuardarEdicion est).promedio ≠ .empty ∧
    (handleGuardarEdicion est).promedio ≠ .null ∧
    handleGuardarEdicion est = { est with promedio := .num 0 } := by
  simp [handleGuardarEdicion, h]

/-- Claim C10 witness: the theorem applied to a concrete record with empty
`promedio`. -/
theorem claim_C10_witness :
    (handleGuardarEdicion fallbackRow).promedio = .num 0 :=
  (claim_C10 fallbackRow rfl).1

/-- Claim C7 counterexample: a file with disallowed lowercase extension
(`a.txt`) that also exceeds the size limit, but whose MIME type is
permitted, gets ONLY the size error — the extension error is absent, so the
stated "both errors for any such file" fails. -/
theorem claim_C7_counterexample :
    jsEndsWith (jsToLower "a.txt") ".xlsx" = false ∧
    jsEndsWith (jsToLower "a.txt") ".xls" = false ∧
    5 * 1024 * 1024 + 1 > 5 * 1024 * 1024 ∧
    (validarArchivoExcel
        ⟨"a.txt", "application/vnd.ms-excel", 5 * 1024 * 1024 + 1⟩).errores
      = [mensajeErrorTamano (5 * 1024 * 1024 + 1)] ∧
    mensajeErrorTipo ∉
      (validarArchivoExcel
        ⟨"a.txt", "application/vnd.ms-excel", 5 * 1024 * 1024 + 1⟩).errores := by
  decide

/-- Claim C7 (amended): the File Validator's two rules are evaluated
independently, not short-circuited: for any file that fails the
type/extension rule (MIME type outside the permitted list AND lowercase
extension outside {.xlsx, .xls}) and also exceeds the size limit, the
returned error list contains both the extension error and the size error. -/
theorem claim_C7_amended (f : JsFile)
    (hty : tiposPermitidos.contains f.type = false)
    (hx : jsEndsWith (jsToLower f.name) ".xlsx" = false)
    (hxls : jsEndsWith (jsToLower f.name) ".xls" = false)
    (hsz : f.size > 5 * 1024 * 1024) :
    (validarArchivoExcel f).errores = [mensajeErrorTipo, mensajeErrorTamano f.size] ∧
    mensajeErrorTipo ∈ (validarArchivoExcel f).errores ∧
    mensajeErrorTamano f.size ∈ (validarArchivoExcel f).errores := by
  have hty' : f.type ∉ tiposPermitidos := by simpa using hty
  unfold validarArchivoExcel
  simp [hty', hx, hxls, hsz]

/-- Claim C2: the `xhr.onload` dispatcher resolves with the parsed outcome
on a 2xx status, rejects with the distinct malformed-response message when
the 2xx body fails to parse, and maps non-2xx statuses 400, 413, 500 to
their specific failure messages and every other status to the generic
`Error HTTP: <code>` message. -/
theorem claim_C2 (status : ℕ) (parsed : Option ProcessingResults) :
    (∀ d, 200 ≤ status → status < 300 → parsed = some d →
        xhrOnload status parsed = .resolved d) ∧
    (200 ≤ status → status < 300 → parsed = none →
        xhrOnload status parsed = .rejected "Error al analizar la respuesta del servidor") ∧
    xhrOnload 400 parsed = .rejected "Archivo con formato incorrecto" ∧
    xhrOnload 413 parsed = .rejected "El archivo es demasiado grande" ∧
    xhrOnload 500 parsed = .rejected "Error en el servidor" ∧
    (¬(200 ≤ status ∧ status < 300) → status ≠ 400 → status ≠ 413 → status ≠ 500 →
        xhrOnload status parsed = .rejected ("Error HTTP: " ++ toString status)) := by
  refine ⟨?_, ?_, ?_, ?_, ?_, ?_⟩
  · intro d h1 h2 h3
    simp [xhrOnload, h1, h2, h3]
  · intro h1 h2 h3
    simp [xhrOnload, h1, h2, h3]
  · simp [xhrOnload]
  · simp [xhrOnload]
  · simp [xhrOnload]
  · intro h2xx h400 h413 h500
    simp [xhrOnload, h2xx, h400, h413, h500]

/-- Claim C2 witness: the dispatcher evaluated through the theorem at
statuses 201 (with and without a parsable body) and 503. -/
theorem claim_C2_witness :
    xhrOnload 201 (some sampleOutcome) = .resolved sampleOutcome ∧
    xhrOnload 201 none = .rejected "Error al analizar la respuesta del servidor" ∧
    xhrOnload 503 none = .rejected ("Error HTTP: " ++ toString 503) :=
  ⟨(claim_C2 201 (some sampleOutcome)).1 sampleOutcome (by decide) (by decide) rfl,
   (claim_C2 201 none).2.1 (by decide) (by decide) rfl,
   (claim_C2 503 none).2.2.2.2.2 (by decide) (by decide) (by decide) (by decide)⟩

/-- Claim C3: the derived completion percentage is
`round(insertados / totalProcesados × 100)` for nonzero `totalProcesados`
and 0 when `totalProcesados` is 0; on the outcome `insertados:8,
totalProcesados:10` with 2 per-record errors it equals 80 and the rendered
view shows the success message together with the 2 errors. -/
theorem claim_C3 :
    (∀ r : ProcessingResults, totalProcesadosVal r = 0 → porcentajeExito r = 0) ∧
    (∀ r : ProcessingResults, totalProcesadosVal r ≠ 0 →
        porcentajeExito r =
          jsRound ((insertadosVal r : ℚ) / (totalProcesadosVal r : ℚ) * 100)) ∧
    porcentajeExito sampleOutcome = 80 ∧
    (importResultsView sampleOutcome).mensaje = "Importación exitosa" ∧
    sampleOutcome.success = true ∧
    (importResultsView sampleOutcome).showErrorList = true ∧
    (importResultsView sampleOutcome).errorCount = 2 := by
  refine ⟨?_, ?_, ?_, ?_, ?_, ?_, ?_⟩
  · intro r h
    simp [porcentajeExito, h]
  · intro r h
    simp [porcentajeExito, h]
  · norm_num [porcentajeExito, totalProcesadosVal, insertadosVal, sampleOutcome, jsRound]
  · decide
  · decide
  · decide
  · decide

/-- Claim C3 witness: the general formulas of the theorem instantiated at
outcomes with `totalProcesados` 3 and 0. -/
theorem claim_C3_witness :
    porcentajeExito ⟨true, none, none, some 1, some 3, none⟩ =
      jsRound ((insertadosVal ⟨true, none, none, some 1, some 3, none⟩ : ℚ) /
        (totalProcesadosVal ⟨true, none, none, some 1, some 3, none⟩ : ℚ) * 100) ∧
    porcentajeExito ⟨false, none, none, some 5, some 0, none⟩ = 0 :=
  ⟨claim_C3.2.1 ⟨true, none, none, some 1, some 3, none⟩ (by decide),
   claim_C3.1 ⟨false, none, none, some 5, some 0, none⟩ (by decide)⟩

/-- Claim C5: an upload settling with a parsed `success:true` outcome
schedules exactly one list refresh, on a single 2000 ms timer (so the
refresh fires only after the fixed 2-second display delay); a
`success:false` outcome or a rejected (transport-failed) upload schedules
none. -/
theorem claim_C5 (r : UploadSettle) :
    (∀ d, r = .resolved d → d.success = true →
        afterUploadScheduledRefreshDelays r = [2000] ∧ refreshesTriggered r = 1) ∧
    (∀ d, r = .resolved d → d.success = false →
        afterUploadScheduledRefreshDelays r = [] ∧ refreshesTriggered r = 0) ∧
    (∀ m, r = .rejected m →
        afterUploadScheduledRefreshDelays r = [] ∧ refreshesTriggered r = 0) := by
  refine ⟨?_, ?_, ?_⟩
  · intro d hr hs
    subst hr
    simp [afterUploadScheduledRefreshDelays, refreshesTriggered,
      handleImportCompleteRefreshCount, hs]
  · intro d hr hs
    subst hr
    simp [afterUploadScheduledRefreshDelays, refreshesTriggered,
      handleImportCompleteRefreshCount, hs]
  · intro m hr
    subst hr
    simp [afterUploadScheduledRefreshDelays, refreshesTriggered,
      handleImportCompleteRefreshCount]

/-- Claim C5 witness: the theorem evaluated on a successful outcome, a
failed outcome and a rejected upload. -/
theorem claim_C5_witness :
    afterUploadScheduledRefreshDelays (.resolved sampleOutcome) = [2000] ∧
    refreshesTriggered (.resolved sampleOutcome) = 1 ∧
    refreshesTriggered (.resolved { sampleOutcome with success := false }) = 0 ∧
    refreshesTriggered (.rejected "Error en el servidor") = 0 :=
  ⟨((claim_C5 (.resolved sampleOutcome)).1 sampleOutcome rfl rfl).1,
   ((claim_C5 (.resolved sampleOutcome)).1 sampleOutcome rfl rfl).2,
   ((claim_C5 (.resolved { sampleOutcome with success := false })).2.1 _ rfl rfl).2,
   ((claim_C5 (.rejected "Error en el servidor")).2.2 _ rfl).2⟩

/-- Claim C7 witness: the amended theorem applied to a concrete file that
violates both rules; both error messages are present. -/
theorem claim_C7_witness :
    (validarArchivoExcel ⟨"a.txt", "text/plain", 6 * 1024 * 1024⟩).errores
      = [mensajeErrorTipo, mensajeErrorTamano (6 * 1024 * 1024)] :=
  (claim_C7_amended ⟨"a.txt", "text/plain", 6 * 1024 * 1024⟩
    (by decide) (by decide) (by decide) (by decide)).1

/-! ### Helper lemmas for the Record Form Validator -/

/-- A one-element conditional list is empty iff the condition fails. -/
theorem ite_nil_iff {α : Type} {c : Prop} [Decidable c] {a : α} :
    (if c then [a] else []) = [] ↔ ¬c := by
  split <;> simp_all

/-- A two-level conditional list is empty iff both conditions fail. -/
theorem ite_ite_nil_iff {α : Type} {c d : Prop} [Decidable c] [Decidable d] {a b : α} :
    (if c then [a] else if d then [b] else []) = [] ↔ ¬c ∧ ¬d := by
  by_cases hc : c <;> by_cases hd : d <;> simp_all

/-- An element not satisfying the dropped predicate survives `dropWhile`. -/
theorem mem_dropWhile_of_neg {p : Char → Bool} {c : Char} (hc : p c = false) :
    ∀ {l : List Char}, c ∈ l → c ∈ l.dropWhile p := by
  intro l
  induction l with
  | nil => intro h; exact absurd h (List.not_mem_nil c)
  | cons a t ih =>
    intro h
    rw [List.dropWhile_cons]
    by_cases ha : p a = true
    · rw [if_pos ha]
      rcases List.mem_cons.mp h with rfl | ht
      · rw [hc] at ha; exact Bool.noConfusion ha
      · exact ih ht
    · rw [if_neg ha]
      exact h

/-- A non-whitespace member of a character list survives trimming. -/
theorem mem_trimList {c : Char} (hc : jsWhitespace c = false) {l : List Char}
    (h : c ∈ l) : c ∈ trimList l := by
  unfold trimList
  exact List.mem_reverse.mpr
    (mem_dropWhile_of_neg hc (List.mem_reverse.mpr (mem_dropWhile_of_neg hc h)))

/-- A string built from a character list is empty iff the list is. -/
theorem string_mk_eq_empty_iff {l : List Char} : (⟨l⟩ : String) = "" ↔ l = [] := by
  constructor
  · intro h
    simpa using congrArg String.data h
  · intro h
    subst h
    rfl

/-- A matching email contains exactly one `@`. -/
theorem emailRegexTest_count {s : String} (h : emailRegexTest s = true) :
    s.data.count '@' = 1 := by
  simp only [emailRegexTest, Bool.and_eq_true, beq_iff_eq] at h
  exact h.1.1.2

/-- A string matching the email regex is nonempty. -/
theorem ne_empty_of_regex {s : String} (h : emailRegexTest s = true) : s ≠ "" := by
  intro hs
  subst hs
  exact absurd h (by decide)

/-- A string matching the email regex is nonempty even after trimming. -/
theorem jsTrim_ne_of_regex {s : String} (h : emailRegexTest s = true) :
    jsTrim s ≠ "" := by
  have hmem : '@' ∈ s.data := by
    have hcount := emailRegexTest_count h
    by_contra hmem
    rw [List.count_eq_zero_of_not_mem hmem] at hcount
    omega
  have htrim : '@' ∈ trimList s.data := mem_trimList (by decide) hmem
  intro hempty
  rw [jsTrim, string_mk_eq_empty_iff] at hempty
  exact List.ne_nil_of_mem htrim hempty

/-- The `promedio` check of `validateForm` passes exactly on the spec's
acceptance condition for the average. -/
theorem promedioErrors_nil_iff (p : PromedioVal) :
    promedioErrors p = [] ↔ promedioClaimOk p := by
  rcases p with _ | _ | q | _
  · simp [promedioErrors, promedioClaimOk]
  · simp [promedioErrors, promedioClaimOk]
  · simp [promedioErrors, promedioClaimOk, ite_nil_iff, not_or, not_lt]
  · simp [promedioErrors, promedioClaimOk]

/-- Lemma: `validateForm` reports no error exactly on the spec's acceptance
condition for every field. -/
theorem validateFormErrors_nil_iff (f : Estudiante) :
    validateFormErrors f = [] ↔
      (jsTrim f.nombre ≠ "" ∧ jsTrim f.apellido ≠ "" ∧ jsTrim f.telefono ≠ "" ∧
       jsTrim f.carrera ≠ "" ∧ f.email ≠ "" ∧ emailRegexTest f.email = true ∧
       1 ≤ f.semestre ∧ f.semestre ≤ 12 ∧ promedioClaimOk f.promedio) := by
  unfold validateFormErrors
  simp only [List.append_eq_nil, ite_nil_iff, ite_ite_nil_iff, promedioErrors_nil_iff,
    not_or, not_lt]
  constructor
  · rintro ⟨⟨⟨⟨⟨⟨h1, h2⟩, h3, h6⟩, h4⟩, hc1, hc2⟩, hs1, hs2⟩, h9⟩
    have h6' : emailRegexTest f.email = true := by
      cases hb : emailRegexTest f.email
      · exact absurd hb h6
      · rfl
    exact ⟨h1, h2, h4, hc2, ne_empty_of_regex h6', h6', hs1, hs2, h9⟩
  · rintro ⟨h1, h2, h4, hc2, he, h6, hs1, hs2, h9⟩
    refine ⟨⟨⟨⟨⟨⟨h1, h2⟩, jsTrim_ne_of_regex h6, ?_⟩, h4⟩, ?_, hc2⟩, hs1, hs2⟩, h9⟩
    · rw [h6]
      exact fun hx => Bool.noConfusion hx
    · intro hcar
      exact hc2 (by rw [hcar]; rfl)

/-- Claim C6: the Record Form Validator returns an empty error mapping
exactly when the given name, family name, phone and program are non-empty
after trimming, the email is non-empty and matches the local@domain.tld
shape, the semester is in [1,12], and the average, when present, is a
number in [0,10] (empty/absent yields no error); the spec's bad candidate
produces exactly the 4 errors (name, email, semester, average), and with an
empty average only those 3. -/
theorem claim_C6 :
    (∀ f : Estudiante,
        validateFormErrors f = [] ↔
          (jsTrim f.nombre ≠ "" ∧ jsTrim f.apellido ≠ "" ∧ jsTrim f.telefono ≠ "" ∧
           jsTrim f.carrera ≠ "" ∧ f.email ≠ "" ∧ emailRegexTest f.email = true ∧
           1 ≤ f.semestre ∧ f.semestre ≤ 12 ∧ promedioClaimOk f.promedio)) ∧
    (validateFormErrors badCandidate).map Prod.fst
      = ["nombre", "email", "semestre", "promedio"] ∧
    (validateFormErrors badCandidateEmptyProm).map Prod.fst
      = ["nombre", "email", "semestre"] := by
  refine ⟨validateFormErrors_nil_iff, ?_, ?_⟩ <;> decide

/-- Claim C6 witness: the characterisation applied to a concrete fully
valid record — the validator reports no errors on it. -/
theorem claim_C6_witness :
    validateFormErrors sampleEstudiante = [] :=
  (claim_C6.1 sampleEstudiante).mpr
    ⟨by decide, by decide, by decide, by decide, by decide, by decide,
     by decide, by decide, ⟨by decide, by decide⟩⟩

/-! ### Helper lemmas for the progress tracker -/

/-- With a shared total, the computed percentage is monotone in the bytes
sent. -/
theorem percent_mono {e1 e2 : ProgressEvent} (ht : e1.total = e2.total)
    (hl : e1.loaded ≤ e2.loaded) : percentComplete e1 ≤ percentComplete e2 := by
  unfold percentComplete
  rw [ht, div_eq_mul_inv, div_eq_mul_inv]
  have h1 : (e1.loaded : ℚ) ≤ (e2.loaded : ℚ) := by exact_mod_cast hl
  have h2 : (0 : ℚ) ≤ ((e2.total : ℚ))⁻¹ := by positivity
  exact mul_le_mul_of_nonneg_right (mul_le_mul_of_nonneg_right h1 h2) (by norm_num)

/-- When the bytes sent never exceed the byte total, the percentage is at
most 100. -/
theorem percent_le_100 {e : ProgressEvent} (h : e.loaded ≤ e.total) :
    percentComplete e ≤ 100 := by
  unfold percentComplete
  rcases Nat.eq_zero_or_pos e.total with h0 | hpos
  · rw [h0]
    simp
  · have hpos' : (0 : ℚ) < e.total := by exact_mod_cast hpos
    have hdiv : (e.loaded : ℚ) / e.total ≤ 1 := by
      rw [div_le_one hpos']
      exact_mod_cast h
    calc (e.loaded : ℚ) / e.total * 100 ≤ 1 * 100 :=
          mul_le_mul_of_nonneg_right hdiv (by norm_num)
      _ = 100 := by norm_num

/-- Monotone loaded counts with a shared total yield pairwise-ordered
emitted percentages. -/
theorem emittedPercents_pairwise {l : List ProgressEvent} (T : ℕ)
    (hT : ∀ e ∈ l, e.total = T)
    (hmono : l.Pairwise fun a b => a.loaded ≤ b.loaded) :
    (emittedPercents l).Pairwise (· ≤ ·) := by
  induction l with
  | nil => simp [emittedPercents]
  | cons a t ih =>
    cases hmono with
    | cons ha ht' =>
      have hTt : ∀ e ∈ t, e.total = T := fun e he => hT e (List.mem_cons_of_mem a he)
      have hTa : a.total = T := hT a (List.mem_cons_self a t)
      cases hoe : onprogressEmit a with
      | none =>
        have heq : emittedPercents (a :: t) = emittedPercents t := by
          simp [emittedPercents, List.filterMap_cons, hoe]
        rw [heq]
        exact ih hTt ht'
      | some p =>
        have heq : emittedPercents (a :: t) = p :: emittedPercents t := by
          simp [emittedPercents, List.filterMap_cons, hoe]
        rw [heq]
        refine List.Pairwise.cons ?_ (ih hTt ht')
        intro q hq
        obtain ⟨e, he, hqe⟩ := List.mem_filterMap.mp hq
        have hpa : p = percentComplete a := by
          unfold onprogressEmit at hoe
          split at hoe
          · injection hoe with h
            exact h.symm
          · exact Option.noConfusion hoe
        have hqe' : q = percentComplete e := by
          unfold onprogressEmit at hqe
          split at hqe
          · injection hqe with h
            exact h.symm
          · exact Option.noConfusion hqe
        rw [hpa, hqe']
        exact percent_mono (hTa.trans (hTt e he).symm) (ha e he)

/-- Every emitted percentage is at most 100 when bytes sent never exceed
the total. -/
theorem emittedPercents_le_100 {l : List ProgressEvent}
    (hle : ∀ e ∈ l, e.loaded ≤ e.total) :
    ∀ p ∈ emittedPercents l, p ≤ 100 := by
  intro p hp
  obtain ⟨e, he, hpe⟩ := List.mem_filterMap.mp hp
  have hp' : p = percentComplete e := by
    unfold onprogressEmit at hpe
    split at hpe
    · injection hpe with h
      exact h.symm
    · exact Option.noConfusion hpe
  rw [hp']
  exact percent_le_100 (hle e he)

/-- Claim C8: within one upload — under the XHR delivery guarantees that
all computable progress ticks share the fixed byte total, their `loaded`
counts are non-decreasing and bounded by the total, and the single
terminal event is the last event delivered — the emitted progress
percentages form a non-decreasing sequence, never exceed 100, and no
percentage is emitted after the terminal event. -/
theorem claim_C8 (tr : List XhrEvent) (T : ℕ)
    (hT : ∀ e ∈ progEvents tr, e.total = T)
    (hmono : (progEvents tr).Pairwise fun a b => a.loaded ≤ b.loaded)
    (hle : ∀ e ∈ progEvents tr, e.loaded ≤ e.total)
    (hterm : eventsAfterTerminal tr = []) :
    List.Chain' (· ≤ ·) (emittedPercents (progEvents tr)) ∧
    (∀ p ∈ emittedPercents (progEvents tr), p ≤ 100) ∧
    emittedPercents (progEvents (eventsAfterTerminal tr)) = [] := by
  refine ⟨(emittedPercents_pairwise T hT hmono).chain', emittedPercents_le_100 hle, ?_⟩
  rw [hterm]
  rfl

/-- Claim C8 witness: the theorem applied to a concrete well-formed trace
of three progress ticks followed by the terminal event. -/
theorem claim_C8_witness :
    List.Chain' (· ≤ ·) (emittedPercents (progEvents sampleTrace)) ∧
    (∀ p ∈ emittedPercents (progEvents sampleTrace), p ≤ 100) ∧
    emittedPercents (progEvents (eventsAfterTerminal sampleTrace)) = [] :=
  claim_C8 sampleTrace 200 (by decide) (by decide) (by decide) (by decide)

end Masivas
